import Mathlib

/-!
Shallow embedding of `thre3d_atom/modules/trainers.py`
(`train_sh_vox_grid_vol_mod_with_posed_images`) from akanimax/relu_fields.

The trainer's observable behaviour is modelled as the list of events it performs, in program
order.  External collaborators that are not part of the sources (the renderer, the dataset,
the random initializer, the resampling kernel, the scalar metric function) are abstracted as
function parameters; collaborators whose behaviour the claims depend on and whose code is
absent are modelled from the spec and carry a doc comment saying so.
-/

namespace ReluFields

/-- 3-D grid resolution (the `grid_dims` of a voxel grid). -/
structure GridSize where
  x : Nat
  y : Nat
  z : Nat
deriving DecidableEq, Repr

/-- Modelled from the spec: the `VoxelGrid` representation (`thre3d_reprs/voxels.py` is absent
from src/).  Spec §3/§6: a parameter store holding a density field and an
appearance-coefficient (features) field, addressed by a 3-D grid resolution, and exposing a
list of optimizeable parameters.  The type `P` abstracts tensor contents. -/
structure VoxelGrid (P : Type) where
  grid_dims : GridSize
  densities : P
  features : P
  parameters : List P
deriving DecidableEq

/-- The volumetric model wrapper (`modules/volumetric_model.py` is absent from src/): it carries
the underlying representation plus the two facts checked by the entry assertions of the
trainer (lines 109-115): whether `thre3d_repr` is a `VoxelGrid` instance and whether the
render procedure is `render_sh_voxel_grid`. -/
structure VolumetricModel (P : Type) where
  thre3d_repr : VoxelGrid P
  repr_is_voxel_grid : Bool
  render_procedure_is_sh_voxel_grid : Bool
  device : Nat
deriving DecidableEq

/-- The keyword arguments of `train_sh_vox_grid_vol_mod_with_posed_images` that this embedding
needs, with the source's default values (lines 42-75). -/
structure TrainConfig where
  image_batch_cache_size : Nat := 8
  ray_batch_size : Nat := 32768
  num_stages : Nat := 4
  num_iterations_per_stage : Nat := 2000
  scale_factor : Rat := 2
  lr_decay_steps_per_stage : Nat := 1000
  save_freq : Nat := 1000
  test_freq : Nat := 1000
  feedback_freq : Nat := 100
  summary_freq : Nat := 10
  apply_diffuse_render_regularization : Bool := true
  fast_debug_mode : Bool := false
deriving DecidableEq

/-- The facts the trainer reads from the posed-images datasets: the training-set image count,
the camera intrinsics height/width, and whether a test dataset was supplied. -/
structure DatasetInfo where
  num_train_images : Nat
  height : Nat
  width : Nat
  has_test_dataset : Bool
deriving DecidableEq

/-- External collaborators of the trainer, abstracted as pure functions:
`random_initializer` (default `torch.nn.init.uniform_`), `resample` (the content part of the
voxel-grid resize), the renderer `vol_mod.render_rays` (indexed by global step and by the
`render_diffuse` flag, producing the flattened colour batch), the sampled target pixel batch
per global step, and the `mse2psnr` metric collaborator as used for logged values. -/
structure Externals (P : Type) where
  random_initializer : P → P
  resample : P → GridSize → P
  render : Nat → Bool → List Rat
  target : Nat → List Rat
  mse2psnr : Rat → Rat

/-- torch `l1_loss` with the default mean reduction, on flattened rational pixel batches. -/
def l1_loss (a b : List Rat) : Rat :=
  (((a.zip b).map fun p => |p.1 - p.2|).sum) / ((a.zip b).length : Rat)

/-- torch `mse_loss` with the default mean reduction. -/
def mse_loss (a b : List Rat) : Rat :=
  (((a.zip b).map fun p => (p.1 - p.2) ^ 2).sum) / ((a.zip b).length : Rat)

/-- Observable actions of one training run, in program order. -/
inductive Event where
  | resizeGrid (size : GridSize) (mode : String) (rerandomized : Bool)
  | cameraRaysViz
  | optimizerCreated (stage : Nat) (num_params : Nat)
  | renderCall (step : Nat) (render_diffuse : Bool)
  | gradStep (step : Nat) (dims : GridSize) (loss : Rat)
  | scalar (tag : String) (value : Rat) (step : Nat)
  | consoleLog (step : Nat)
  | lrStep (step : Nat)
  | feedbackRender (step : Nat) (log_diffuse_rendered_version : Bool)
  | testEval (step : Nat)
  | save (filename : String)
deriving DecidableEq

/-- Line 341: `global_step = ((stage - 1) * num_iterations_per_stage) + stage_iteration`. -/
def global_step (num_iterations_per_stage stage stage_iteration : Nat) : Nat :=
  (stage - 1) * num_iterations_per_stage + stage_iteration

/-- Lines 344-348 (and identically 363-367): tensorboard/console summary condition. -/
def summaryTrigger (cfg : TrainConfig) (g i : Nat) : Bool :=
  g % cfg.summary_freq == 0 || i == 1 || i == cfg.num_iterations_per_stage

/-- Lines 391-395: rendered-feedback condition. -/
def feedbackTrigger (cfg : TrainConfig) (g i : Nat) : Bool :=
  g % cfg.feedback_freq == 0 || i == 1 || i == cfg.num_iterations_per_stage

/-- Lines 412-419: held-out evaluation condition. -/
def testTrigger (cfg : TrainConfig) (has_test : Bool) (g i : Nat) : Bool :=
  has_test && !cfg.fast_debug_mode &&
    (g % cfg.test_freq == 0 || i == cfg.num_iterations_per_stage)

/-- Lines 429-433: checkpoint condition. -/
def saveTrigger (cfg : TrainConfig) (g i : Nat) : Bool :=
  g % cfg.save_freq == 0 || i == 1 || i == cfg.num_iterations_per_stage

/-- Line 445: `model_stage_{stage}_iter_{global_step}.pth`. -/
def saveFileName (stage g : Nat) : String :=
  "model_stage_" ++ toString stage ++ "_iter_" ++ toString g ++ ".pth"

/-- Lines 349-360: the named scalars offered to the tensorboard writer, in source order;
entries whose value is `none` are skipped (`if summary_value is not None`). -/
def summaryScalars (g : Nat) (slv : Rat) (dlv : Option Rat) (spv : Rat) (dpv : Option Rat)
    (tl : Rat) (ne : Rat) : List Event :=
  ([("specular_loss", some slv), ("diffuse_loss", dlv), ("specular_psnr", some spv),
    ("diffuse_psnr", dpv), ("total_loss", some tl), ("num_epochs", some ne)]).filterMap
    fun p => p.2.map fun v => Event.scalar p.1 v g

variable {P : Type}

/-- Lines 266-446: the events of one inner-loop iteration (stage `stage`, stage-local
iteration `i`, current grid resolution `dims`). -/
def iterationEvents (cfg : TrainConfig) (ext : Externals P) (ds : DatasetInfo)
    (dsz : Nat) (dims : GridSize) (stage i : Nat) : List Event :=
  let g := global_step cfg.num_iterations_per_stage stage i
  let pixels_batch := ext.target g
  let specular := ext.render g false
  let specular_loss_value := l1_loss specular pixels_batch
  let specular_psnr_value := ext.mse2psnr (mse_loss specular pixels_batch)
  let diffuse := ext.render g true
  let diffuse_loss_value : Option Rat :=
    if cfg.apply_diffuse_render_regularization then some (l1_loss diffuse pixels_batch)
    else none
  let diffuse_psnr_value : Option Rat :=
    if cfg.apply_diffuse_render_regularization then
      some (ext.mse2psnr (mse_loss diffuse pixels_batch))
    else none
  let total_loss :=
    if cfg.apply_diffuse_render_regularization then
      l1_loss specular pixels_batch + l1_loss diffuse pixels_batch
    else specular_loss_value
  let num_epochs := ((cfg.ray_batch_size * g : Nat) : Rat) / (dsz : Rat)
  [Event.renderCall g false]
  ++ (if cfg.apply_diffuse_render_regularization then [Event.renderCall g true] else [])
  ++ [Event.gradStep g dims total_loss]
  ++ (if summaryTrigger cfg g i then
        summaryScalars g specular_loss_value diffuse_loss_value specular_psnr_value
          diffuse_psnr_value total_loss num_epochs
      else [])
  ++ (if summaryTrigger cfg g i then [Event.consoleLog g] else [])
  ++ (if i % cfg.lr_decay_steps_per_stage == 0 then [Event.lrStep g] else [])
  ++ (if feedbackTrigger cfg g i then [Event.feedbackRender g true] else [])
  ++ (if testTrigger cfg ds.has_test_dataset g i then [Event.testEval g] else [])
  ++ (if saveTrigger cfg g i then [Event.save (saveFileName stage g)] else [])

/-- Modelled from the spec: `scale_voxel_grid_with_required_output_size`
(`thre3d_reprs/voxels.py` is absent from src/).  Spec §6: a resize operation
`resize(new_resolution, mode) -> representation` that resamples the existing contents onto
the new resolution; the content transformation is abstracted by `resample`. -/
def scale_voxel_grid_with_required_output_size (resample : P → GridSize → P)
    (grid : VoxelGrid P) (output_size : GridSize) : VoxelGrid P :=
  { grid_dims := output_size
    densities := resample grid.densities output_size
    features := resample grid.features output_size
    parameters := grid.parameters.map fun p => resample p output_size }

/-- One application of the per-stage shrink: each axis divided by the scale factor, floored. -/
def shrinkDim (f : Rat) (d : Nat) : Nat := (⌊(d : Rat) / f⌋).toNat

def shrinkSize (f : Rat) (s : GridSize) : GridSize :=
  ⟨shrinkDim f s.x, shrinkDim f s.y, shrinkDim f s.z⟩

def shrinkIter (f : Rat) : Nat → GridSize → GridSize
  | 0, s => s
  | n + 1, s => shrinkSize f (shrinkIter f n s)

/-- Modelled from the spec: `compute_thre3d_grid_sizes` (`utils/misc.py` is absent from src/).
Spec §4.1: an ordered list of `num_stages` resolutions whose last entry equals the final
target and in which each earlier entry is the next one divided by the scale factor along
every axis (floored), the first entry being the coarsest; fails if `num_stages < 1` or the
scale factor is ≤ 1. -/
def compute_thre3d_grid_sizes (final_required_resolution : GridSize) (num_stages : Nat)
    (scale_factor : Rat) : Except String (List GridSize) :=
  if num_stages < 1 then Except.error "num_stages must be at least 1"
  else if scale_factor ≤ 1 then Except.error "scale_factor must be greater than 1"
  else Except.ok ((List.range num_stages).map fun k =>
    shrinkIter scale_factor (num_stages - 1 - k) final_required_resolution)

def default_grid_size : GridSize := ⟨0, 0, 0⟩

/-- Lines 182-187: `dataset_size = len(train_dl) * height * width`.  With
`drop_last=True` and `batch_size=image_batch_cache_size` (lines 153-157), `len(train_dl)` is
the number of whole image batches, that is `num_train_images / image_batch_cache_size`
rounded down. -/
def dataset_size (cfg : TrainConfig) (ds : DatasetInfo) : Nat :=
  ds.num_train_images / cfg.image_batch_cache_size * ds.height * ds.width

/-- Lines 237-262 and 266-446: the events of one full stage — the per-stage optimizer
construction over the representation's current optimizeable parameters, followed by
`num_iterations_per_stage` iterations. -/
def stageIterEvents (cfg : TrainConfig) (ext : Externals P) (ds : DatasetInfo)
    (dsz : Nat) (grid : VoxelGrid P) (stage : Nat) : List Event :=
  Event.optimizerCreated stage grid.parameters.length ::
    (List.range' 1 cfg.num_iterations_per_stage).flatMap
      (iterationEvents cfg ext ds dsz grid.grid_dims stage)

/-- Lines 449-458: the representation after the end of stage `stage` — upsampled to the next
scheduled size with `mode="trilinear"` unless the completed stage was the final one. -/
def transitionGrid (cfg : TrainConfig) (ext : Externals P) (sizes : List GridSize)
    (grid : VoxelGrid P) (stage : Nat) : VoxelGrid P :=
  if stage != cfg.num_stages then
    scale_voxel_grid_with_required_output_size ext.resample grid
      (sizes.getD stage default_grid_size)
  else grid

/-- Lines 449-458: the resize event recorded at the end of stage `stage` (none after the
final stage). -/
def transitionEvents (cfg : TrainConfig) (sizes : List GridSize) (stage : Nat) : List Event :=
  if stage != cfg.num_stages then
    [Event.resizeGrid (sizes.getD stage default_grid_size) "trilinear" false]
  else []

/-- Lines 236-458: the stage loop.  At each stage start the source asserts that the
representation's optimizeable-parameter set is non-empty (lines 239-242); after each
non-final stage it upsamples the grid (lines 449-458). -/
def trainLoop (cfg : TrainConfig) (ext : Externals P) (ds : DatasetInfo)
    (dsz : Nat) (sizes : List GridSize) :
    VoxelGrid P → List Nat → Except String (List Event × VoxelGrid P)
  | grid, [] => Except.ok ([], grid)
  | grid, stage :: rest =>
    if grid.parameters.isEmpty then
      Except.error "No optimizeable parameters :(. Nothing will happen"
    else
      match trainLoop cfg ext ds dsz sizes (transitionGrid cfg ext sizes grid stage) rest with
      | Except.error e => Except.error e
      | Except.ok (evs, finalGrid) =>
        Except.ok (stageIterEvents cfg ext ds dsz grid stage ++
          transitionEvents cfg sizes stage ++ evs, finalGrid)

/-- The events of the stage loop of a run that passes all its assertions (the pure content of
`trainLoop`). -/
def loopEvents (cfg : TrainConfig) (ext : Externals P) (ds : DatasetInfo)
    (dsz : Nat) (sizes : List GridSize) : VoxelGrid P → List Nat → List Event
  | _, [] => []
  | grid, stage :: rest =>
    stageIterEvents cfg ext ds dsz grid stage ++ transitionEvents cfg sizes stage ++
      loopEvents cfg ext ds dsz sizes (transitionGrid cfg ext sizes grid stage) rest

/-- The representation left by the stage loop (the pure content of `trainLoop`). -/
def loopGrid (cfg : TrainConfig) (ext : Externals P) (sizes : List GridSize) :
    VoxelGrid P → List Nat → VoxelGrid P
  | grid, [] => grid
  | grid, stage :: rest =>
    loopGrid cfg ext sizes (transitionGrid cfg ext sizes grid stage) rest

/-- Lines 124-135: the one-time initial downscale to the coarsest scheduled size followed by
re-randomization of the scaled densities and features
(`random_initializer(vol_mod.thre3d_repr.densities)` etc.). -/
def initialGrid (ext : Externals P) (grid : VoxelGrid P) (r0 : GridSize) : VoxelGrid P :=
  let downscaled := scale_voxel_grid_with_required_output_size ext.resample grid r0
  { grid_dims := downscaled.grid_dims
    densities := ext.random_initializer downscaled.densities
    features := ext.random_initializer downscaled.features
    parameters := downscaled.parameters.map ext.random_initializer }

/-- Lines 42-476: the whole training procedure.  The model to train is `store ref` (the
store/reference pair makes the source's in-place mutation of the Python object explicit);
the result is the event trace, the returned reference and the updated store. -/
def train_sh_vox_grid_vol_mod_with_posed_images (cfg : TrainConfig) (ext : Externals P)
    (ds : DatasetInfo) (ref : Nat) (store : Nat → VolumetricModel P) :
    Except String (List Event × Nat × (Nat → VolumetricModel P)) :=
  let vol_mod := store ref
  if !vol_mod.repr_is_voxel_grid then
    Except.error "cannot use this thre3d_repr with this TrainProcedure; only a VoxelGrid can be used"
  else if !vol_mod.render_procedure_is_sh_voxel_grid then
    Except.error "non SH-based VoxelGrids cannot be used with this TrainProcedure"
  else
    match compute_thre3d_grid_sizes vol_mod.thre3d_repr.grid_dims cfg.num_stages
        cfg.scale_factor with
    | Except.error e => Except.error e
    | Except.ok stagewise_voxel_grid_sizes =>
      let r0 := stagewise_voxel_grid_sizes.getD 0 default_grid_size
      let grid0 := initialGrid ext vol_mod.thre3d_repr r0
      let preEvents := Event.resizeGrid r0 "trilinear" true ::
        (if cfg.fast_debug_mode then [] else [Event.cameraRaysViz])
      match trainLoop cfg ext ds (dataset_size cfg ds) stagewise_voxel_grid_sizes grid0
          (List.range' 1 cfg.num_stages) with
      | Except.error e => Except.error e
      | Except.ok (loopEvs, finalGrid) =>
        Except.ok (preEvents ++ loopEvs ++ [Event.save "model_final.pth"], ref,
          fun r => if r = ref then { vol_mod with thre3d_repr := finalGrid } else store r)

/-- Whether the run completes without a fatal error. -/
def trainOk (cfg : TrainConfig) (ext : Externals P) (ds : DatasetInfo) (ref : Nat)
    (store : Nat → VolumetricModel P) : Bool :=
  match train_sh_vox_grid_vol_mod_with_posed_images cfg ext ds ref store with
  | Except.ok _ => true
  | Except.error _ => false

/-- The event trace of a completed run (empty on a fatal error). -/
def trainTrace (cfg : TrainConfig) (ext : Externals P) (ds : DatasetInfo) (ref : Nat)
    (store : Nat → VolumetricModel P) : List Event :=
  match train_sh_vox_grid_vol_mod_with_posed_images cfg ext ds ref store with
  | Except.ok (tr, _, _) => tr
  | Except.error _ => []

/-- The reference returned by a completed run (the input reference on a fatal error). -/
def trainRef (cfg : TrainConfig) (ext : Externals P) (ds : DatasetInfo) (ref : Nat)
    (store : Nat → VolumetricModel P) : Nat :=
  match train_sh_vox_grid_vol_mod_with_posed_images cfg ext ds ref store with
  | Except.ok (_, r, _) => r
  | Except.error _ => ref

/-- The object store after a completed run (the input store on a fatal error). -/
def trainStore (cfg : TrainConfig) (ext : Externals P) (ds : DatasetInfo) (ref : Nat)
    (store : Nat → VolumetricModel P) : Nat → VolumetricModel P :=
  match train_sh_vox_grid_vol_mod_with_posed_images cfg ext ds ref store with
  | Except.ok (_, _, st) => st
  | Except.error _ => store

/-- Extract from a trace the data selected by `f`, in trace order. -/
def traceFilter {α : Type} (f : Event → Option α) (tr : List Event) : List α :=
  tr.filterMap f

/-- The global steps of the gradient-update events of a trace, in order. -/
def gradStepsOf : List Event → List Nat :=
  traceFilter fun e => match e with
    | Event.gradStep g _ _ => some g
    | _ => none

/-- The filenames of the model snapshots written by a trace, in order. -/
def savedFilesOf : List Event → List String :=
  traceFilter fun e => match e with
    | Event.save f => some f
    | _ => none

/-- The `(value, step)` pairs of the scalars named `tag` emitted to the metrics sink. -/
def scalarsOf (tag : String) : List Event → List (Rat × Nat) :=
  traceFilter fun e => match e with
    | Event.scalar t v g => if t = tag then some (v, g) else none
    | _ => none

/-- The grid-resize events of a trace: target size, interpolation mode, and whether the
resized contents were re-randomized afterwards. -/
def resizesOf : List Event → List (GridSize × String × Bool) :=
  traceFilter fun e => match e with
    | Event.resizeGrid s m r => some (s, m, r)
    | _ => none

/-- The `(step, objective value)` pairs of the gradient-update events of a trace. -/
def gradLossesOf : List Event → List (Nat × Rat) :=
  traceFilter fun e => match e with
    | Event.gradStep g _ q => some (g, q)
    | _ => none

/-- The `(step, grid resolution)` pairs of the gradient-update events of a trace. -/
def gradDimsOf : List Event → List (Nat × GridSize) :=
  traceFilter fun e => match e with
    | Event.gradStep g d _ => some (g, d)
    | _ => none

/-- The global steps of the held-out evaluation events of a trace. -/
def testStepsOf : List Event → List Nat :=
  traceFilter fun e => match e with
    | Event.testEval g => some g
    | _ => none

/-- The `(step, log_diffuse_rendered_version)` pairs of the feedback-render events. -/
def feedbacksOf : List Event → List (Nat × Bool) :=
  traceFilter fun e => match e with
    | Event.feedbackRender g b => some (g, b)
    | _ => none

/-- The global steps of the diffuse-mode render passes used for the loss computation. -/
def diffuseRenderStepsOf : List Event → List Nat :=
  traceFilter fun e => match e with
    | Event.renderCall g b => if b then some g else none
    | _ => none

/-- The global steps at which a scalar named `tag` is emitted to the metrics sink. -/
def scalarStepsOf (tag : String) : List Event → List Nat :=
  traceFilter fun e => match e with
    | Event.scalar t _ g => if t = tag then some g else none
    | _ => none

/-- The occurrences of the one-time startup camera-rays diagnostic visualization. -/
def cameraRaysVizOf : List Event → List Unit :=
  traceFilter fun e => match e with
    | Event.cameraRaysViz => some ()
    | _ => none

/-- The stage-wise resolution schedule of a run, read off the scheduler (empty if the
scheduler rejects its inputs). -/
def scheduledSizes (cfg : TrainConfig) (vm : VolumetricModel P) : List GridSize :=
  match compute_thre3d_grid_sizes vm.thre3d_repr.grid_dims cfg.num_stages cfg.scale_factor with
  | Except.ok sizes => sizes
  | Except.error _ => []

/-- The representation as it stands at the start of the first stage of a run: downscaled to
the coarsest scheduled size and re-randomized (lines 124-135). -/
def runStartGrid (cfg : TrainConfig) (ext : Externals P) (store : Nat → VolumetricModel P)
    (ref : Nat) : VoxelGrid P :=
  initialGrid ext (store ref).thre3d_repr
    ((scheduledSizes cfg (store ref)).getD 0 default_grid_size)

/-- The events emitted by the stage loop of a run. -/
def runLoopEvents (cfg : TrainConfig) (ext : Externals P) (ds : DatasetInfo)
    (store : Nat → VolumetricModel P) (ref : Nat) : List Event :=
  loopEvents cfg ext ds (dataset_size cfg ds) (scheduledSizes cfg (store ref))
    (runStartGrid cfg ext store ref) (List.range' 1 cfg.num_stages)

/-- The representation left behind by the stage loop of a run. -/
def runFinalGrid (cfg : TrainConfig) (ext : Externals P) (store : Nat → VolumetricModel P)
    (ref : Nat) : VoxelGrid P :=
  loopGrid cfg ext (scheduledSizes cfg (store ref)) (runStartGrid cfg ext store ref)
    (List.range' 1 cfg.num_stages)

/-- Modelled from the spec: `mse2psnr` (`thre3d_atom/utils/metric_utils.py` is absent from
src/; the trainer calls it at lines 310-312 and 329-331 to produce the PSNR values passed to
the logs).  Spec §4.3: PSNR is derived from the mean squared error as
`10 * log10(max_val^2 / mse)`, and because that expression is undefined at `mse = 0` the
implementation must return a finite saturating cap there instead of propagating
infinity/NaN.  The general-formula branch is abstracted as `psnr_formula`; the codomain is
the extended reals so that finiteness ("never infinity") is expressible. -/
def mse2psnr (cap : Real) (psnr_formula : Rat → Rat → Real) (max_val mse : Rat) : EReal :=
  if mse = 0 then (cap : EReal) else ((psnr_formula max_val mse : Real) : EReal)

/-! ### Concrete instances used by closed theorems -/

/-- Trivial external collaborators over `Unit` contents, used for concrete runs. -/
def unitExternals : Externals Unit :=
  { random_initializer := id
    resample := fun p _ => p
    render := fun _ _ => []
    target := fun _ => []
    mse2psnr := fun q => q }

/-- A one-object store holding a valid 8x8x8 model with two optimizeable parameters. -/
def unitStore : Nat → VolumetricModel Unit :=
  fun _ => ⟨⟨⟨8, 8, 8⟩, (), (), [(), ()]⟩, true, true, 0⟩

/-- A store whose model has an empty optimizeable-parameter list. -/
def emptyParamStore : Nat → VolumetricModel Unit :=
  fun _ => ⟨⟨⟨8, 8, 8⟩, (), (), []⟩, true, true, 0⟩

/-- The configuration of end-to-end scenario A of the spec. -/
def scenarioA_config : TrainConfig :=
  { num_stages := 1, num_iterations_per_stage := 5, save_freq := 5, summary_freq := 1 }

/-- A one-stage, one-iteration configuration with `ray_batch_size = 4`. -/
def scenarioC3_config : TrainConfig :=
  { num_stages := 1, num_iterations_per_stage := 1, ray_batch_size := 4 }

/-- A dataset of 8 images of 2x2 pixels, no held-out set. -/
def scenarioC3_dataset : DatasetInfo := ⟨8, 2, 2, false⟩

/-- A one-stage, one-iteration configuration with diffuse regularization disabled. -/
def scenarioC8_config : TrainConfig :=
  { num_stages := 1, num_iterations_per_stage := 1,
    apply_diffuse_render_regularization := false }

/-- A small two-stage configuration in which every cadence fires each iteration. -/
def witness_config : TrainConfig :=
  { num_stages := 2, num_iterations_per_stage := 2, lr_decay_steps_per_stage := 1,
    save_freq := 1, test_freq := 1, feedback_freq := 1, summary_freq := 1 }

/-- A dataset of 8 images of 2x2 pixels with a held-out set present. -/
def witness_dataset : DatasetInfo := ⟨8, 2, 2, true⟩

/-! ### Machinery lemmas -/

variable {P : Type}

lemma traceFilter_append {α : Type} (f : Event → Option α) (a b : List Event) :
    traceFilter f (a ++ b) = traceFilter f a ++ traceFilter f b :=
  List.filterMap_append a b f

lemma traceFilter_flatMap {α β : Type} (f : Event → Option α) (g : β → List Event)
    (l : List β) :
    traceFilter f (l.flatMap g) = l.flatMap fun x => traceFilter f (g x) := by
  induction l with
  | nil => rfl
  | cons x xs ih => simp only [List.flatMap_cons, traceFilter_append, ih]

lemma transitionGrid_parameters_length (cfg : TrainConfig) (ext : Externals P)
    (sizes : List GridSize) (grid : VoxelGrid P) (stage : Nat) :
    (transitionGrid cfg ext sizes grid stage).parameters.length = grid.parameters.length := by
  unfold transitionGrid scale_voxel_grid_with_required_output_size
  split <;> simp

lemma trainLoop_eq_ok (cfg : TrainConfig) (ext : Externals P) (ds : DatasetInfo)
    (dsz : Nat) (sizes : List GridSize) :
    ∀ (l : List Nat) (grid : VoxelGrid P), grid.parameters ≠ [] →
      trainLoop cfg ext ds dsz sizes grid l =
        Except.ok (loopEvents cfg ext ds dsz sizes grid l, loopGrid cfg ext sizes grid l) := by
  intro l
  induction l with
  | nil => intro grid _; rfl
  | cons s rest ih =>
    intro grid hg
    have hlen : (transitionGrid cfg ext sizes grid s).parameters ≠ [] := by
      intro hnil
      have := transitionGrid_parameters_length cfg ext sizes grid s
      rw [hnil] at this
      exact hg (List.length_eq_zero.mp this.symm)
    simp only [trainLoop, loopEvents, loopGrid]
    rw [if_neg (by simpa [List.isEmpty_iff] using hg), ih _ hlen]

lemma compute_sizes_ok (final : GridSize) (S : Nat) (f : Rat) (hS : 1 ≤ S)
    (hf : 1 < f) :
    compute_thre3d_grid_sizes final S f =
      Except.ok ((List.range S).map fun k => shrinkIter f (S - 1 - k) final) := by
  unfold compute_thre3d_grid_sizes
  rw [if_neg (by omega), if_neg (not_le.mpr hf)]

lemma scheduledSizes_eq (cfg : TrainConfig) (vm : VolumetricModel P)
    (hS : 1 ≤ cfg.num_stages) (hf : 1 < cfg.scale_factor) :
    scheduledSizes cfg vm = (List.range cfg.num_stages).map
      (fun k => shrinkIter cfg.scale_factor (cfg.num_stages - 1 - k)
        vm.thre3d_repr.grid_dims) := by
  unfold scheduledSizes
  rw [compute_sizes_ok _ _ _ hS hf]

lemma train_eq (cfg : TrainConfig) (ext : Externals P) (ds : DatasetInfo) (ref : Nat)
    (store : Nat → VolumetricModel P)
    (h1 : (store ref).repr_is_voxel_grid = true)
    (h2 : (store ref).render_procedure_is_sh_voxel_grid = true)
    (hS : 1 ≤ cfg.num_stages) (hf : 1 < cfg.scale_factor)
    (hp : (runStartGrid cfg ext store ref).parameters ≠ []) :
    train_sh_vox_grid_vol_mod_with_posed_images cfg ext ds ref store =
      Except.ok (Event.resizeGrid ((scheduledSizes cfg (store ref)).getD 0 default_grid_size)
          "trilinear" true ::
        ((if cfg.fast_debug_mode then [] else [Event.cameraRaysViz]) ++
          (runLoopEvents cfg ext ds store ref ++ [Event.save "model_final.pth"])),
        ref,
        fun r => if r = ref then
            { store ref with thre3d_repr := runFinalGrid cfg ext store ref }
          else store r) := by
  have hsz := scheduledSizes_eq cfg (store ref) hS hf
  have hloop := trainLoop_eq_ok cfg ext ds (dataset_size cfg ds)
    (scheduledSizes cfg (store ref)) (List.range' 1 cfg.num_stages)
    (runStartGrid cfg ext store ref) hp
  unfold runStartGrid at hloop
  unfold train_sh_vox_grid_vol_mod_with_posed_images
  simp only [h1, h2, Bool.not_true, Bool.false_eq_true, if_false,
    compute_sizes_ok _ _ _ hS hf]
  rw [← hsz]
  rw [hloop]
  unfold runLoopEvents runFinalGrid runStartGrid
  simp [h1, h2, List.append_assoc]

theorem train_ok_inv (cfg : TrainConfig) (ext : Externals P) (ds : DatasetInfo) (ref : Nat)
    (store : Nat → VolumetricModel P) (h : trainOk cfg ext ds ref store = true) :
    1 ≤ cfg.num_stages ∧ 1 < cfg.scale_factor ∧
      (runStartGrid cfg ext store ref).parameters ≠ [] ∧
      trainTrace cfg ext ds ref store =
        Event.resizeGrid ((scheduledSizes cfg (store ref)).getD 0 default_grid_size)
            "trilinear" true ::
          ((if cfg.fast_debug_mode then [] else [Event.cameraRaysViz]) ++
            (runLoopEvents cfg ext ds store ref ++ [Event.save "model_final.pth"])) ∧
      trainRef cfg ext ds ref store = ref ∧
      trainStore cfg ext ds ref store = fun r =>
        if r = ref then { store ref with thre3d_repr := runFinalGrid cfg ext store ref }
        else store r := by
  have h1 : (store ref).repr_is_voxel_grid = true := by
    by_contra hc
    rw [Bool.not_eq_true] at hc
    unfold trainOk train_sh_vox_grid_vol_mod_with_posed_images at h
    simp [hc] at h
  have h2 : (store ref).render_procedure_is_sh_voxel_grid = true := by
    by_contra hc
    rw [Bool.not_eq_true] at hc
    unfold trainOk train_sh_vox_grid_vol_mod_with_posed_images at h
    simp [h1, hc] at h
  have hS : 1 ≤ cfg.num_stages := by
    by_contra hc
    have h0 : cfg.num_stages = 0 := by omega
    unfold trainOk train_sh_vox_grid_vol_mod_with_posed_images
      compute_thre3d_grid_sizes at h
    simp [h1, h2, h0] at h
  have hf : 1 < cfg.scale_factor := by
    by_contra hc
    rw [not_lt] at hc
    have h0 : ¬ cfg.num_stages = 0 := by omega
    unfold trainOk train_sh_vox_grid_vol_mod_with_posed_images
      compute_thre3d_grid_sizes at h
    simp [h1, h2, h0, hc] at h
  have hp : (runStartGrid cfg ext store ref).parameters ≠ [] := by
    by_contra hc
    obtain ⟨m, hm⟩ : ∃ m, cfg.num_stages = m + 1 := ⟨cfg.num_stages - 1, by omega⟩
    have hsz := scheduledSizes_eq cfg (store ref) hS hf
    unfold runStartGrid at hc
    unfold trainOk train_sh_vox_grid_vol_mod_with_posed_images at h
    simp only [h1, h2, Bool.not_true, Bool.false_eq_true, if_false] at h
    rw [compute_sizes_ok _ _ _ hS hf] at h
    rw [← hsz] at h
    simp only [] at h
    rw [hm, List.range'_succ] at h
    simp only [trainLoop] at h
    rw [if_pos (by simpa [List.isEmpty_iff] using hc)] at h
    simp at h
  have He := train_eq cfg ext ds ref store h1 h2 hS hf hp
  refine ⟨hS, hf, hp, ?_, ?_, ?_⟩
  · unfold trainTrace
    rw [He]
  · unfold trainRef
    rw [He]
  · unfold trainStore
    rw [He]

lemma traceFilter_ite {α : Type} (f : Event → Option α) (c : Prop) [Decidable c]
    (a b : List Event) :
    traceFilter f (if c then a else b) = if c then traceFilter f a else traceFilter f b :=
  apply_ite _ c a b

lemma testStepsOf_iteration (cfg : TrainConfig) (ext : Externals P) (ds : DatasetInfo)
    (dsz : Nat) (dims : GridSize) (stage i : Nat) :
    testStepsOf (iterationEvents cfg ext ds dsz dims stage i) =
      if testTrigger cfg ds.has_test_dataset
          (global_step cfg.num_iterations_per_stage stage i) i then
        [global_step cfg.num_iterations_per_stage stage i]
      else [] := by
  simp only [iterationEvents, testStepsOf]
  simp only [traceFilter_append, traceFilter_ite, summaryScalars]
  by_cases hdiff : cfg.apply_diffuse_render_regularization <;> simp [traceFilter, hdiff]

lemma savedFilesOf_iteration (cfg : TrainConfig) (ext : Externals P) (ds : DatasetInfo)
    (dsz : Nat) (dims : GridSize) (stage i : Nat) :
    savedFilesOf (iterationEvents cfg ext ds dsz dims stage i) =
      if saveTrigger cfg (global_step cfg.num_iterations_per_stage stage i) i then
        [saveFileName stage (global_step cfg.num_iterations_per_stage stage i)]
      else [] := by
  simp only [iterationEvents, savedFilesOf]
  simp only [traceFilter_append, traceFilter_ite, summaryScalars]
  by_cases hdiff : cfg.apply_diffuse_render_regularization <;> simp [traceFilter, hdiff]

lemma feedbacksOf_iteration (cfg : TrainConfig) (ext : Externals P) (ds : DatasetInfo)
    (dsz : Nat) (dims : GridSize) (stage i : Nat) :
    feedbacksOf (iterationEvents cfg ext ds dsz dims stage i) =
      if feedbackTrigger cfg (global_step cfg.num_iterations_per_stage stage i) i then
        [(global_step cfg.num_iterations_per_stage stage i, true)]
      else [] := by
  simp only [iterationEvents, feedbacksOf]
  simp only [traceFilter_append, traceFilter_ite, summaryScalars]
  by_cases hdiff : cfg.apply_diffuse_render_regularization <;> simp [traceFilter, hdiff]

lemma scalarsOf_specular_iteration (cfg : TrainConfig) (ext : Externals P) (ds : DatasetInfo)
    (dsz : Nat) (dims : GridSize) (stage i : Nat) :
    scalarsOf "specular_loss" (iterationEvents cfg ext ds dsz dims stage i) =
      if summaryTrigger cfg (global_step cfg.num_iterations_per_stage stage i) i then
        [(l1_loss (ext.render (global_step cfg.num_iterations_per_stage stage i) false)
            (ext.target (global_step cfg.num_iterations_per_stage stage i)),
          global_step cfg.num_iterations_per_stage stage i)]
      else [] := by
  simp only [iterationEvents, scalarsOf]
  simp only [traceFilter_append, traceFilter_ite, summaryScalars]
  by_cases hdiff : cfg.apply_diffuse_render_regularization <;> simp [traceFilter, hdiff]

lemma diffuseRenderStepsOf_iteration (cfg : TrainConfig) (ext : Externals P)
    (ds : DatasetInfo) (dsz : Nat) (dims : GridSize) (stage i : Nat)
    (hd : cfg.apply_diffuse_render_regularization = false) :
    diffuseRenderStepsOf (iterationEvents cfg ext ds dsz dims stage i) = [] := by
  simp only [iterationEvents, diffuseRenderStepsOf, hd]
  simp only [traceFilter_append, traceFilter_ite, summaryScalars]
  simp [traceFilter, hd]

lemma scalarsOf_diffuse_iteration (cfg : TrainConfig) (ext : Externals P)
    (ds : DatasetInfo) (dsz : Nat) (dims : GridSize) (stage i : Nat)
    (hd : cfg.apply_diffuse_render_regularization = false) :
    scalarsOf "diffuse_loss" (iterationEvents cfg ext ds dsz dims stage i) = [] ∧
    scalarsOf "diffuse_psnr" (iterationEvents cfg ext ds dsz dims stage i) = [] := by
  constructor <;>
  · simp only [iterationEvents, scalarsOf, hd]
    simp only [traceFilter_append, traceFilter_ite, summaryScalars]
    simp [traceFilter]

lemma scalarsOf_total_iteration (cfg : TrainConfig) (ext : Externals P)
    (ds : DatasetInfo) (dsz : Nat) (dims : GridSize) (stage i : Nat)
    (hd : cfg.apply_diffuse_render_regularization = false) :
    scalarsOf "total_loss" (iterationEvents cfg ext ds dsz dims stage i) =
      scalarsOf "specular_loss" (iterationEvents cfg ext ds dsz dims stage i) := by
  simp only [iterationEvents, scalarsOf, hd]
  simp only [traceFilter_append, traceFilter_ite, summaryScalars]
  simp [traceFilter, hd]

lemma gradLossesOf_iteration (cfg : TrainConfig) (ext : Externals P)
    (ds : DatasetInfo) (dsz : Nat) (dims : GridSize) (stage i : Nat)
    (hd : cfg.apply_diffuse_render_regularization = false) :
    gradLossesOf (iterationEvents cfg ext ds dsz dims stage i) =
      [(global_step cfg.num_iterations_per_stage stage i,
        l1_loss (ext.render (global_step cfg.num_iterations_per_stage stage i) false)
          (ext.target (global_step cfg.num_iterations_per_stage stage i)))] := by
  simp only [iterationEvents, gradLossesOf, hd]
  simp only [traceFilter_append, traceFilter_ite, summaryScalars]
  simp [traceFilter, hd]

lemma gradDimsOf_iteration (cfg : TrainConfig) (ext : Externals P)
    (ds : DatasetInfo) (dsz : Nat) (dims : GridSize) (stage i : Nat) :
    gradDimsOf (iterationEvents cfg ext ds dsz dims stage i) =
      [(global_step cfg.num_iterations_per_stage stage i, dims)] := by
  simp only [iterationEvents, gradDimsOf]
  simp only [traceFilter_append, traceFilter_ite, summaryScalars]
  by_cases hdiff : cfg.apply_diffuse_render_regularization <;> simp [traceFilter, hdiff]

lemma resizesOf_iteration (cfg : TrainConfig) (ext : Externals P)
    (ds : DatasetInfo) (dsz : Nat) (dims : GridSize) (stage i : Nat) :
    resizesOf (iterationEvents cfg ext ds dsz dims stage i) = [] := by
  simp only [iterationEvents, resizesOf]
  simp only [traceFilter_append, traceFilter_ite, summaryScalars]
  by_cases hdiff : cfg.apply_diffuse_render_regularization <;> simp [traceFilter, hdiff]

lemma gradStepsOf_iteration (cfg : TrainConfig) (ext : Externals P) (ds : DatasetInfo)
    (dsz : Nat) (dims : GridSize) (stage i : Nat) :
    gradStepsOf (iterationEvents cfg ext ds dsz dims stage i) =
      [global_step cfg.num_iterations_per_stage stage i] := by
  simp only [iterationEvents, gradStepsOf, traceFilter, summaryScalars, List.filterMap_append]
  split_ifs <;> simp

lemma gradStepsOf_stage (cfg : TrainConfig) (ext : Externals P) (ds : DatasetInfo)
    (dsz : Nat) (grid : VoxelGrid P) (stage : Nat) :
    gradStepsOf (stageIterEvents cfg ext ds dsz grid stage) =
      List.range' ((stage - 1) * cfg.num_iterations_per_stage + 1)
        cfg.num_iterations_per_stage := by
  have h1 := gradStepsOf_iteration cfg ext ds dsz grid.grid_dims stage
  unfold stageIterEvents
  simp only [gradStepsOf] at h1 ⊢
  rw [show traceFilter (fun e => match e with
    | Event.gradStep g _ _ => some g
    | _ => none) (Event.optimizerCreated stage grid.parameters.length ::
      (List.range' 1 cfg.num_iterations_per_stage).flatMap
        (iterationEvents cfg ext ds dsz grid.grid_dims stage)) =
    traceFilter (fun e => match e with
    | Event.gradStep g _ _ => some g
    | _ => none) ((List.range' 1 cfg.num_iterations_per_stage).flatMap
        (iterationEvents cfg ext ds dsz grid.grid_dims stage)) from rfl]
  rw [traceFilter_flatMap]
  simp only [h1]
  rw [show ((List.range' 1 cfg.num_iterations_per_stage).flatMap fun i =>
      [global_step cfg.num_iterations_per_stage stage i]) =
    (List.range' 1 cfg.num_iterations_per_stage).map
      (global_step cfg.num_iterations_per_stage stage) from by
    induction (List.range' 1 cfg.num_iterations_per_stage) with
    | nil => rfl
    | cons x xs ih => simp [ih]]
  unfold global_step
  rw [show (fun i => (stage - 1) * cfg.num_iterations_per_stage + i) =
    (fun i => (stage - 1) * cfg.num_iterations_per_stage + i) from rfl]
  exact List.map_add_range' _ 1 _ 1

lemma gradStepsOf_append (a b : List Event) :
    gradStepsOf (a ++ b) = gradStepsOf a ++ gradStepsOf b :=
  traceFilter_append _ a b

lemma gradStepsOf_transition (cfg : TrainConfig) (sizes : List GridSize) (stage : Nat) :
    gradStepsOf (transitionEvents cfg sizes stage) = [] := by
  unfold transitionEvents gradStepsOf traceFilter
  split <;> simp

lemma gradStepsOf_loop (cfg : TrainConfig) (ext : Externals P) (ds : DatasetInfo)
    (dsz : Nat) (sizes : List GridSize) :
    ∀ (l : List Nat) (grid : VoxelGrid P),
      gradStepsOf (loopEvents cfg ext ds dsz sizes grid l) =
        l.flatMap fun s => List.range' ((s - 1) * cfg.num_iterations_per_stage + 1)
          cfg.num_iterations_per_stage := by
  intro l
  induction l with
  | nil => intro grid; rfl
  | cons s rest ih =>
    intro grid
    simp only [loopEvents, List.flatMap_cons, gradStepsOf_append, gradStepsOf_stage,
      gradStepsOf_transition, ih]
    simp

lemma flatMap_stage_ranges (N : Nat) : ∀ (S k : Nat),
    ((List.range' (k + 1) S).flatMap fun s => List.range' ((s - 1) * N + 1) N) =
      List.range' (k * N + 1) (S * N) := by
  intro S
  induction S with
  | zero => intro k; simp
  | succ S ih =>
    intro k
    rw [List.range'_succ, List.flatMap_cons, ih (k + 1)]
    have h1 : (k + 1 - 1) * N = k * N := by simp
    rw [h1]
    have happ := List.range'_append (k * N + 1) N (S * N) 1
    rw [one_mul, show k * N + 1 + N = (k + 1) * N + 1 by ring] at happ
    rw [happ]
    congr 1
    ring

lemma testStepsOf_append (a b : List Event) :
    testStepsOf (a ++ b) = testStepsOf a ++ testStepsOf b :=
  traceFilter_append _ a b

lemma testStepsOf_flatMap {β : Type} (g : β → List Event) (l : List β) :
    testStepsOf (l.flatMap g) = l.flatMap fun x => testStepsOf (g x) :=
  traceFilter_flatMap _ g l

lemma cameraRaysVizOf_append (a b : List Event) :
    cameraRaysVizOf (a ++ b) = cameraRaysVizOf a ++ cameraRaysVizOf b :=
  traceFilter_append _ a b

lemma cameraRaysVizOf_flatMap {β : Type} (g : β → List Event) (l : List β) :
    cameraRaysVizOf (l.flatMap g) = l.flatMap fun x => cameraRaysVizOf (g x) :=
  traceFilter_flatMap _ g l

lemma feedbacksOf_append (a b : List Event) :
    feedbacksOf (a ++ b) = feedbacksOf a ++ feedbacksOf b :=
  traceFilter_append _ a b

lemma feedbacksOf_flatMap {β : Type} (g : β → List Event) (l : List β) :
    feedbacksOf (l.flatMap g) = l.flatMap fun x => feedbacksOf (g x) :=
  traceFilter_flatMap _ g l

lemma testStepsOf_cons_optimizer (s n : Nat) (tr : List Event) :
    testStepsOf (Event.optimizerCreated s n :: tr) = testStepsOf tr := rfl

lemma cameraRaysVizOf_cons_optimizer (s n : Nat) (tr : List Event) :
    cameraRaysVizOf (Event.optimizerCreated s n :: tr) = cameraRaysVizOf tr := rfl

lemma feedbacksOf_cons_optimizer (s n : Nat) (tr : List Event) :
    feedbacksOf (Event.optimizerCreated s n :: tr) = feedbacksOf tr := rfl

lemma testStepsOf_transition (cfg : TrainConfig) (sizes : List GridSize) (stage : Nat) :
    testStepsOf (transitionEvents cfg sizes stage) = [] := by
  unfold transitionEvents
  split <;> rfl

lemma cameraRaysVizOf_transition (cfg : TrainConfig) (sizes : List GridSize) (stage : Nat) :
    cameraRaysVizOf (transitionEvents cfg sizes stage) = [] := by
  unfold transitionEvents
  split <;> rfl

lemma feedbacksOf_transition (cfg : TrainConfig) (sizes : List GridSize) (stage : Nat) :
    feedbacksOf (transitionEvents cfg sizes stage) = [] := by
  unfold transitionEvents
  split <;> rfl

lemma cameraRaysVizOf_iteration (cfg : TrainConfig) (ext : Externals P) (ds : DatasetInfo)
    (dsz : Nat) (dims : GridSize) (stage i : Nat) :
    cameraRaysVizOf (iterationEvents cfg ext ds dsz dims stage i) = [] := by
  simp only [iterationEvents, cameraRaysVizOf]
  simp only [traceFilter_append, traceFilter_ite, summaryScalars]
  by_cases hdiff : cfg.apply_diffuse_render_regularization <;> simp [traceFilter, hdiff]

lemma testStepsOf_loop_fastdebug (cfg : TrainConfig) (ext : Externals P) (ds : DatasetInfo)
    (dsz : Nat) (sizes : List GridSize) (hfd : cfg.fast_debug_mode = true) :
    ∀ (l : List Nat) (grid : VoxelGrid P),
      testStepsOf (loopEvents cfg ext ds dsz sizes grid l) = [] := by
  have htrig : ∀ ht g i, testTrigger cfg ht g i = false := by
    intro ht g i
    simp [testTrigger, hfd]
  intro l
  induction l with
  | nil => intro grid; rfl
  | cons s rest ih =>
    intro grid
    simp only [loopEvents, testStepsOf_append, testStepsOf_transition, ih]
    unfold stageIterEvents
    rw [testStepsOf_cons_optimizer, testStepsOf_flatMap]
    simp [testStepsOf_iteration, htrig]

lemma cameraRaysVizOf_loop (cfg : TrainConfig) (ext : Externals P) (ds : DatasetInfo)
    (dsz : Nat) (sizes : List GridSize) :
    ∀ (l : List Nat) (grid : VoxelGrid P),
      cameraRaysVizOf (loopEvents cfg ext ds dsz sizes grid l) = [] := by
  intro l
  induction l with
  | nil => intro grid; rfl
  | cons s rest ih =>
    intro grid
    simp only [loopEvents, cameraRaysVizOf_append, cameraRaysVizOf_transition, ih]
    unfold stageIterEvents
    rw [cameraRaysVizOf_cons_optimizer, cameraRaysVizOf_flatMap]
    simp [cameraRaysVizOf_iteration]

lemma feedbacksOf_all_true_loop (cfg : TrainConfig) (ext : Externals P) (ds : DatasetInfo)
    (dsz : Nat) (sizes : List GridSize) :
    ∀ (l : List Nat) (grid : VoxelGrid P),
      ((feedbacksOf (loopEvents cfg ext ds dsz sizes grid l)).all fun p => p.2) = true := by
  intro l
  induction l with
  | nil => intro grid; rfl
  | cons s rest ih =>
    intro grid
    simp only [loopEvents, feedbacksOf_append, feedbacksOf_transition, List.all_append, ih]
    unfold stageIterEvents
    rw [feedbacksOf_cons_optimizer, feedbacksOf_flatMap]
    simp only [feedbacksOf_iteration]
    have : ∀ (il : List Nat),
        ((il.flatMap fun i =>
          if feedbackTrigger cfg (global_step cfg.num_iterations_per_stage s i) i then
            [(global_step cfg.num_iterations_per_stage s i, true)]
          else []).all fun p => p.2) = true := by
      intro il
      induction il with
      | nil => rfl
      | cons j js ihj =>
        simp only [List.flatMap_cons, List.all_append, ihj]
        split <;> simp
    simp [this]

lemma gradStepsOf_trace (cfg : TrainConfig) (ext : Externals P) (ds : DatasetInfo)
    (ref : Nat) (store : Nat → VolumetricModel P)
    (h : trainOk cfg ext ds ref store = true) :
    gradStepsOf (trainTrace cfg ext ds ref store) =
      List.range' 1 (cfg.num_stages * cfg.num_iterations_per_stage) := by
  obtain ⟨hS, hf, hp, htr, -, -⟩ := train_ok_inv cfg ext ds ref store h
  rw [htr, ← List.singleton_append, gradStepsOf_append, gradStepsOf_append,
    gradStepsOf_append]
  rw [show runLoopEvents cfg ext ds store ref = loopEvents cfg ext ds (dataset_size cfg ds)
    (scheduledSizes cfg (store ref)) (runStartGrid cfg ext store ref)
    (List.range' 1 cfg.num_stages) from rfl]
  rw [show (1 : Nat) = 0 + 1 from rfl, gradStepsOf_loop, flatMap_stage_ranges]
  have hz : gradStepsOf (if cfg.fast_debug_mode then []
      else [Event.cameraRaysViz]) = [] := by
    split <;> rfl
  rw [hz]
  simp [gradStepsOf, traceFilter]

lemma resizesOf_append (a b : List Event) :
    resizesOf (a ++ b) = resizesOf a ++ resizesOf b :=
  traceFilter_append _ a b

lemma resizesOf_flatMap {β : Type} (g : β → List Event) (l : List β) :
    resizesOf (l.flatMap g) = l.flatMap fun x => resizesOf (g x) :=
  traceFilter_flatMap _ g l

lemma resizesOf_cons_optimizer (s n : Nat) (tr : List Event) :
    resizesOf (Event.optimizerCreated s n :: tr) = resizesOf tr := rfl

lemma gradDimsOf_append (a b : List Event) :
    gradDimsOf (a ++ b) = gradDimsOf a ++ gradDimsOf b :=
  traceFilter_append _ a b

lemma gradDimsOf_flatMap {β : Type} (g : β → List Event) (l : List β) :
    gradDimsOf (l.flatMap g) = l.flatMap fun x => gradDimsOf (g x) :=
  traceFilter_flatMap _ g l

lemma gradDimsOf_cons_optimizer (s n : Nat) (tr : List Event) :
    gradDimsOf (Event.optimizerCreated s n :: tr) = gradDimsOf tr := rfl

lemma resizesOf_stage (cfg : TrainConfig) (ext : Externals P) (ds : DatasetInfo)
    (dsz : Nat) (grid : VoxelGrid P) (stage : Nat) :
    resizesOf (stageIterEvents cfg ext ds dsz grid stage) = [] := by
  unfold stageIterEvents
  rw [resizesOf_cons_optimizer, resizesOf_flatMap]
  simp [resizesOf_iteration]

lemma gradDimsOf_transition (cfg : TrainConfig) (sizes : List GridSize) (stage : Nat) :
    gradDimsOf (transitionEvents cfg sizes stage) = [] := by
  unfold transitionEvents
  split <;> rfl

lemma resizesOf_transition_eq (cfg : TrainConfig) (sizes : List GridSize) (stage : Nat) :
    resizesOf (transitionEvents cfg sizes stage) =
      if stage != cfg.num_stages then
        [(sizes.getD stage default_grid_size, "trilinear", false)]
      else [] := by
  unfold transitionEvents
  split <;> rfl

lemma resizesOf_loop (cfg : TrainConfig) (ext : Externals P) (ds : DatasetInfo)
    (dsz : Nat) (sizes : List GridSize) :
    ∀ (l : List Nat) (grid : VoxelGrid P),
      resizesOf (loopEvents cfg ext ds dsz sizes grid l) =
        l.flatMap fun s => if s != cfg.num_stages then
          [(sizes.getD s default_grid_size, "trilinear", false)]
        else [] := by
  intro l
  induction l with
  | nil => intro grid; rfl
  | cons s rest ih =>
    intro grid
    simp only [loopEvents, List.flatMap_cons, resizesOf_append, resizesOf_stage,
      resizesOf_transition_eq, ih]
    simp

lemma flatMap_if_ne {α : Type} (f : Nat → α) (S : Nat) :
    ∀ (l : List Nat), (∀ s ∈ l, s ≠ S) →
      (l.flatMap fun s => if s != S then [f s] else []) = l.map f := by
  intro l
  induction l with
  | nil => intro _; rfl
  | cons a as ih =>
    intro hne
    simp only [List.flatMap_cons, List.map_cons]
    rw [if_pos (by simpa using hne a (by simp)), ih fun s hs => hne s (by simp [hs])]
    rfl

lemma resizes_range_form {α : Type} (f : Nat → α) (S : Nat) (hS : 1 ≤ S) :
    ((List.range' 1 S).flatMap fun s => if s != S then [f s] else []) =
      (List.range' 1 (S - 1)).map f := by
  obtain ⟨m, rfl⟩ : ∃ m, S = m + 1 := ⟨S - 1, by omega⟩
  rw [List.range'_concat, List.flatMap_append]
  rw [flatMap_if_ne f (m + 1) (List.range' 1 m) ?hne]
  · simp
    omega
  · intro s hs
    rw [List.mem_range'] at hs
    obtain ⟨i, hi, rfl⟩ := hs
    omega

lemma transitionGrid_dims (cfg : TrainConfig) (ext : Externals P) (sizes : List GridSize)
    (grid : VoxelGrid P) (stage : Nat) :
    (transitionGrid cfg ext sizes grid stage).grid_dims =
      if stage != cfg.num_stages then sizes.getD stage default_grid_size
      else grid.grid_dims := by
  unfold transitionGrid scale_voxel_grid_with_required_output_size
  split <;> rfl

lemma flatMap_singleton_map {α β : Type} (f : α → β) (l : List α) :
    (l.flatMap fun x => [f x]) = l.map f := by
  induction l with
  | nil => rfl
  | cons a as ih => simp [ih]

lemma gradDimsOf_stage (cfg : TrainConfig) (ext : Externals P) (ds : DatasetInfo)
    (dsz : Nat) (grid : VoxelGrid P) (stage : Nat) :
    gradDimsOf (stageIterEvents cfg ext ds dsz grid stage) =
      (List.range' 1 cfg.num_iterations_per_stage).map fun i =>
        (global_step cfg.num_iterations_per_stage stage i, grid.grid_dims) := by
  unfold stageIterEvents
  rw [gradDimsOf_cons_optimizer, gradDimsOf_flatMap]
  simp only [gradDimsOf_iteration]
  exact flatMap_singleton_map _ _

lemma gradDimsOf_loop (cfg : TrainConfig) (ext : Externals P) (ds : DatasetInfo)
    (dsz : Nat) (sizes : List GridSize) :
    ∀ (m k : Nat) (grid : VoxelGrid P),
      grid.grid_dims = sizes.getD k default_grid_size → k + m ≤ cfg.num_stages →
      gradDimsOf (loopEvents cfg ext ds dsz sizes grid (List.range' (k + 1) m)) =
        (List.range' (k + 1) m).flatMap fun s =>
          (List.range' 1 cfg.num_iterations_per_stage).map fun i =>
            (global_step cfg.num_iterations_per_stage s i,
              sizes.getD (s - 1) default_grid_size) := by
  intro m
  induction m with
  | zero => intro k grid _ _; rfl
  | succ m ih =>
    intro k grid hdims hle
    rw [List.range'_succ]
    simp only [loopEvents, List.flatMap_cons, gradDimsOf_append, gradDimsOf_transition,
      gradDimsOf_stage]
    rw [hdims]
    by_cases hcase : (k + 1) != cfg.num_stages
    · have hgd : (transitionGrid cfg ext sizes grid (k + 1)).grid_dims =
          sizes.getD (k + 1) default_grid_size := by
        rw [transitionGrid_dims, if_pos hcase]
      rw [show k + 1 + 1 = (k + 1) + 1 from rfl]
      rw [ih (k + 1) _ hgd (by omega)]
      simp
    · have hk : k + 1 = cfg.num_stages := by simpa using hcase
      have hm : m = 0 := by omega
      subst hm
      rw [show List.range' (k + 1 + 1) 0 = [] from rfl]
      simp
      rfl

lemma runStartGrid_dims (cfg : TrainConfig) (ext : Externals P)
    (store : Nat → VolumetricModel P) (ref : Nat) :
    (runStartGrid cfg ext store ref).grid_dims =
      (scheduledSizes cfg (store ref)).getD 0 default_grid_size := rfl

lemma scalarsOf_append (tag : String) (a b : List Event) :
    scalarsOf tag (a ++ b) = scalarsOf tag a ++ scalarsOf tag b :=
  traceFilter_append _ a b

lemma scalarsOf_flatMap (tag : String) {β : Type} (g : β → List Event) (l : List β) :
    scalarsOf tag (l.flatMap g) = l.flatMap fun x => scalarsOf tag (g x) :=
  traceFilter_flatMap _ g l

lemma scalarsOf_cons_optimizer (tag : String) (s n : Nat) (tr : List Event) :
    scalarsOf tag (Event.optimizerCreated s n :: tr) = scalarsOf tag tr := rfl

lemma scalarsOf_transition (tag : String) (cfg : TrainConfig) (sizes : List GridSize)
    (stage : Nat) :
    scalarsOf tag (transitionEvents cfg sizes stage) = [] := by
  unfold transitionEvents
  split <;> rfl

lemma diffuseRenderStepsOf_append (a b : List Event) :
    diffuseRenderStepsOf (a ++ b) = diffuseRenderStepsOf a ++ diffuseRenderStepsOf b :=
  traceFilter_append _ a b

lemma diffuseRenderStepsOf_flatMap {β : Type} (g : β → List Event) (l : List β) :
    diffuseRenderStepsOf (l.flatMap g) = l.flatMap fun x => diffuseRenderStepsOf (g x) :=
  traceFilter_flatMap _ g l

lemma diffuseRenderStepsOf_cons_optimizer (s n : Nat) (tr : List Event) :
    diffuseRenderStepsOf (Event.optimizerCreated s n :: tr) = diffuseRenderStepsOf tr := rfl

lemma diffuseRenderStepsOf_transition (cfg : TrainConfig) (sizes : List GridSize)
    (stage : Nat) :
    diffuseRenderStepsOf (transitionEvents cfg sizes stage) = [] := by
  unfold transitionEvents
  split <;> rfl

lemma gradLossesOf_append (a b : List Event) :
    gradLossesOf (a ++ b) = gradLossesOf a ++ gradLossesOf b :=
  traceFilter_append _ a b

lemma gradLossesOf_flatMap {β : Type} (g : β → List Event) (l : List β) :
    gradLossesOf (l.flatMap g) = l.flatMap fun x => gradLossesOf (g x) :=
  traceFilter_flatMap _ g l

lemma gradLossesOf_cons_optimizer (s n : Nat) (tr : List Event) :
    gradLossesOf (Event.optimizerCreated s n :: tr) = gradLossesOf tr := rfl

lemma gradLossesOf_transition (cfg : TrainConfig) (sizes : List GridSize) (stage : Nat) :
    gradLossesOf (transitionEvents cfg sizes stage) = [] := by
  unfold transitionEvents
  split <;> rfl

lemma scalarsOf_diffuse_loop (cfg : TrainConfig) (ext : Externals P) (ds : DatasetInfo)
    (dsz : Nat) (sizes : List GridSize)
    (hd : cfg.apply_diffuse_render_regularization = false) :
    ∀ (l : List Nat) (grid : VoxelGrid P),
      scalarsOf "diffuse_loss" (loopEvents cfg ext ds dsz sizes grid l) = [] ∧
      scalarsOf "diffuse_psnr" (loopEvents cfg ext ds dsz sizes grid l) = [] := by
  intro l
  induction l with
  | nil => intro grid; exact ⟨rfl, rfl⟩
  | cons s rest ih =>
    intro grid
    constructor <;>
    · simp only [loopEvents, scalarsOf_append, scalarsOf_transition, (ih _).1, (ih _).2]
      unfold stageIterEvents
      rw [scalarsOf_cons_optimizer, scalarsOf_flatMap]
      simp [fun i => scalarsOf_diffuse_iteration cfg ext ds dsz grid.grid_dims s i hd]

lemma diffuseRenderStepsOf_loop (cfg : TrainConfig) (ext : Externals P) (ds : DatasetInfo)
    (dsz : Nat) (sizes : List GridSize)
    (hd : cfg.apply_diffuse_render_regularization = false) :
    ∀ (l : List Nat) (grid : VoxelGrid P),
      diffuseRenderStepsOf (loopEvents cfg ext ds dsz sizes grid l) = [] := by
  intro l
  induction l with
  | nil => intro grid; rfl
  | cons s rest ih =>
    intro grid
    simp only [loopEvents, diffuseRenderStepsOf_append, diffuseRenderStepsOf_transition, ih]
    unfold stageIterEvents
    rw [diffuseRenderStepsOf_cons_optimizer, diffuseRenderStepsOf_flatMap]
    simp [fun i => diffuseRenderStepsOf_iteration cfg ext ds dsz grid.grid_dims s i hd]

lemma scalarsOf_total_eq_specular_loop (cfg : TrainConfig) (ext : Externals P)
    (ds : DatasetInfo) (dsz : Nat) (sizes : List GridSize)
    (hd : cfg.apply_diffuse_render_regularization = false) :
    ∀ (l : List Nat) (grid : VoxelGrid P),
      scalarsOf "total_loss" (loopEvents cfg ext ds dsz sizes grid l) =
        scalarsOf "specular_loss" (loopEvents cfg ext ds dsz sizes grid l) := by
  intro l
  induction l with
  | nil => intro grid; rfl
  | cons s rest ih =>
    intro grid
    simp only [loopEvents, scalarsOf_append, scalarsOf_transition, ih]
    unfold stageIterEvents
    rw [scalarsOf_cons_optimizer, scalarsOf_cons_optimizer, scalarsOf_flatMap,
      scalarsOf_flatMap]
    simp [fun i => scalarsOf_total_iteration cfg ext ds dsz grid.grid_dims s i hd]

lemma gradLossesOf_stage_specular (cfg : TrainConfig) (ext : Externals P) (ds : DatasetInfo)
    (dsz : Nat) (grid : VoxelGrid P) (stage : Nat)
    (hd : cfg.apply_diffuse_render_regularization = false) :
    gradLossesOf (stageIterEvents cfg ext ds dsz grid stage) =
      (gradStepsOf (stageIterEvents cfg ext ds dsz grid stage)).map fun g =>
        (g, l1_loss (ext.render g false) (ext.target g)) := by
  rw [gradStepsOf_stage]
  unfold stageIterEvents
  rw [gradLossesOf_cons_optimizer, gradLossesOf_flatMap]
  simp only [fun i => gradLossesOf_iteration cfg ext ds dsz grid.grid_dims stage i hd]
  rw [flatMap_singleton_map]
  rw [← List.map_add_range' ((stage - 1) * cfg.num_iterations_per_stage) 1
    cfg.num_iterations_per_stage 1, List.map_map]
  rfl

lemma gradLossesOf_loop_specular (cfg : TrainConfig) (ext : Externals P) (ds : DatasetInfo)
    (dsz : Nat) (sizes : List GridSize)
    (hd : cfg.apply_diffuse_render_regularization = false) :
    ∀ (l : List Nat) (grid : VoxelGrid P),
      gradLossesOf (loopEvents cfg ext ds dsz sizes grid l) =
        (gradStepsOf (loopEvents cfg ext ds dsz sizes grid l)).map fun g =>
          (g, l1_loss (ext.render g false) (ext.target g)) := by
  intro l
  induction l with
  | nil => intro grid; rfl
  | cons s rest ih =>
    intro grid
    simp only [loopEvents, gradLossesOf_append, gradLossesOf_transition, gradStepsOf_append,
      gradStepsOf_transition, List.map_append, ih,
      gradLossesOf_stage_specular cfg ext ds dsz grid s hd]
    simp

lemma savedFilesOf_append (a b : List Event) :
    savedFilesOf (a ++ b) = savedFilesOf a ++ savedFilesOf b :=
  traceFilter_append _ a b

lemma savedFilesOf_flatMap {β : Type} (g : β → List Event) (l : List β) :
    savedFilesOf (l.flatMap g) = l.flatMap fun x => savedFilesOf (g x) :=
  traceFilter_flatMap _ g l

lemma savedFilesOf_cons_optimizer (s n : Nat) (tr : List Event) :
    savedFilesOf (Event.optimizerCreated s n :: tr) = savedFilesOf tr := rfl

lemma savedFilesOf_transition (cfg : TrainConfig) (sizes : List GridSize) (stage : Nat) :
    savedFilesOf (transitionEvents cfg sizes stage) = [] := by
  unfold transitionEvents
  split <;> rfl

lemma scalarStepsOf_append (tag : String) (a b : List Event) :
    scalarStepsOf tag (a ++ b) = scalarStepsOf tag a ++ scalarStepsOf tag b :=
  traceFilter_append _ a b

lemma scalarStepsOf_flatMap (tag : String) {β : Type} (g : β → List Event) (l : List β) :
    scalarStepsOf tag (l.flatMap g) = l.flatMap fun x => scalarStepsOf tag (g x) :=
  traceFilter_flatMap _ g l

lemma scalarStepsOf_cons_optimizer (tag : String) (s n : Nat) (tr : List Event) :
    scalarStepsOf tag (Event.optimizerCreated s n :: tr) = scalarStepsOf tag tr := rfl

lemma scalarStepsOf_transition (tag : String) (cfg : TrainConfig) (sizes : List GridSize)
    (stage : Nat) :
    scalarStepsOf tag (transitionEvents cfg sizes stage) = [] := by
  unfold transitionEvents
  split <;> rfl

lemma scalarStepsOf_specular_iteration (cfg : TrainConfig) (ext : Externals P)
    (ds : DatasetInfo) (dsz : Nat) (dims : GridSize) (stage i : Nat) :
    scalarStepsOf "specular_loss" (iterationEvents cfg ext ds dsz dims stage i) =
      if summaryTrigger cfg (global_step cfg.num_iterations_per_stage stage i) i then
        [global_step cfg.num_iterations_per_stage stage i]
      else [] := by
  simp only [iterationEvents, scalarStepsOf]
  simp only [traceFilter_append, traceFilter_ite, summaryScalars]
  by_cases hdiff : cfg.apply_diffuse_render_regularization <;> simp [traceFilter, hdiff]

/-! ### Claim theorems -/

/-- C1: when the representation's set of optimizeable parameters is empty, every call to
`train_sh_vox_grid_vol_mod_with_posed_images` (with a valid representation variant, render
procedure and stage schedule) fails fast with the fatal stage-start assertion error, before
any gradient work is performed and before any optimizer is built. -/
theorem empty_parameters_fails_fast (cfg : TrainConfig) (ext : Externals P)
    (ds : DatasetInfo) (ref : Nat) (store : Nat → VolumetricModel P)
    (h1 : (store ref).repr_is_voxel_grid = true)
    (h2 : (store ref).render_procedure_is_sh_voxel_grid = true)
    (hS : 1 ≤ cfg.num_stages) (hf : 1 < cfg.scale_factor)
    (hp : (store ref).thre3d_repr.parameters = []) :
    train_sh_vox_grid_vol_mod_with_posed_images cfg ext ds ref store =
      Except.error "No optimizeable parameters :(. Nothing will happen" := by
  obtain ⟨m, hm⟩ : ∃ m, cfg.num_stages = m + 1 := ⟨cfg.num_stages - 1, by omega⟩
  unfold train_sh_vox_grid_vol_mod_with_posed_images
  simp only [h1, h2, Bool.not_true, Bool.false_eq_true, if_false]
  rw [compute_sizes_ok _ _ _ hS hf]
  simp only []
  rw [hm, List.range'_succ]
  simp only [trainLoop]
  rw [if_pos (by simp [initialGrid, scale_voxel_grid_with_required_output_size, hp,
    List.isEmpty_iff])]

theorem empty_parameters_fails_fast_witness :
    (emptyParamStore 0).thre3d_repr.parameters = [] ∧
    train_sh_vox_grid_vol_mod_with_posed_images {} unitExternals witness_dataset 0
      emptyParamStore =
      Except.error "No optimizeable parameters :(. Nothing will happen" :=
  ⟨rfl, empty_parameters_fails_fast {} unitExternals witness_dataset 0 emptyParamStore
    rfl rfl (by norm_num) (by norm_num) rfl⟩

/-- C2: for every stage `s` and iteration `i`, the global step keying all periodic side
effects equals `(s-1) * num_iterations_per_stage + i`; over a whole completed run the
gradient-step clock is exactly `1, 2, ..., num_stages * num_iterations_per_stage` — it
increases by 1 every inner-loop iteration, never resets at a stage transition, and never
skips a value. -/
theorem global_step_clock (cfg : TrainConfig) (ext : Externals P) (ds : DatasetInfo)
    (ref : Nat) (store : Nat → VolumetricModel P)
    (h : trainOk cfg ext ds ref store = true) :
    gradStepsOf (trainTrace cfg ext ds ref store) =
      List.range' 1 (cfg.num_stages * cfg.num_iterations_per_stage) ∧
    ∀ stage i, global_step cfg.num_iterations_per_stage stage i =
      (stage - 1) * cfg.num_iterations_per_stage + i := by
  refine ⟨gradStepsOf_trace cfg ext ds ref store h, fun stage i => rfl⟩

theorem global_step_clock_witness :
    trainOk witness_config unitExternals witness_dataset 0 unitStore = true ∧
    gradStepsOf (trainTrace witness_config unitExternals witness_dataset 0 unitStore) =
      [1, 2, 3, 4] := by
  refine ⟨by with_unfolding_all decide, ?_⟩
  have H := global_step_clock witness_config unitExternals witness_dataset 0 unitStore
    (by with_unfolding_all decide)
  exact H.1.trans (by decide)

/-- C3 (code bug): at a concrete run with 8 training images, the default
`image_batch_cache_size = 8`, 2x2 images and `ray_batch_size = 4`, the `num_epochs` value
emitted at global step 1 is `1` — `ray_batch_size * step / dataset_size` with
`dataset_size = len(train_dl) * H * W = 4` (a count of image *batches* times pixels per
image) — whereas the claimed formula `ray_batch_size * step / (num_images * H * W)` gives
`4 / 32 = 1/8 ≠ 1`.  The code contradicts its own comment
"dataset size aka number of total pixels" (line 182). -/
theorem num_epochs_counts_batches_not_pixels :
    Event.scalar "num_epochs" 1 1 ∈
      trainTrace scenarioC3_config unitExternals scenarioC3_dataset 0 unitStore ∧
    dataset_size scenarioC3_config scenarioC3_dataset = 4 ∧
    scenarioC3_dataset.num_train_images * scenarioC3_dataset.height *
      scenarioC3_dataset.width = 32 ∧
    ((scenarioC3_config.ray_batch_size * 1 : Nat) : Rat) /
        ((scenarioC3_dataset.num_train_images * scenarioC3_dataset.height *
          scenarioC3_dataset.width : Nat) : Rat) ≠ 1 := by
  with_unfolding_all decide

/-- C4: with `num_stages = 1`, `num_iterations_per_stage = 5`, `save_freq = 5` and
`summary_freq = 1`, a completed run emits scalar-logging events at exactly the five steps
1..5 (one per iteration), writes exactly two periodic checkpoint files — one forced at
iteration 1 and a single file at iteration 5 where the periodic and forced-last triggers
coincide — plus one additional, distinctly named final-model file. -/
theorem scenario_A_events (ext : Externals P) (ds : DatasetInfo) (ref : Nat)
    (store : Nat → VolumetricModel P)
    (h : trainOk scenarioA_config ext ds ref store = true) :
    scalarStepsOf "specular_loss" (trainTrace scenarioA_config ext ds ref store) =
      [1, 2, 3, 4, 5] ∧
    savedFilesOf (trainTrace scenarioA_config ext ds ref store) =
      ["model_stage_1_iter_1.pth", "model_stage_1_iter_5.pth", "model_final.pth"] := by
  obtain ⟨hS, hf, hp, htr, -, -⟩ := train_ok_inv scenarioA_config ext ds ref store h
  have hrun : runLoopEvents scenarioA_config ext ds store ref =
      stageIterEvents scenarioA_config ext ds (dataset_size scenarioA_config ds)
        (runStartGrid scenarioA_config ext store ref) 1 ++
      transitionEvents scenarioA_config (scheduledSizes scenarioA_config (store ref)) 1 ++
      [] := by
    rw [show runLoopEvents scenarioA_config ext ds store ref =
      loopEvents scenarioA_config ext ds (dataset_size scenarioA_config ds)
        (scheduledSizes scenarioA_config (store ref))
        (runStartGrid scenarioA_config ext store ref) [1] from rfl]
    simp only [loopEvents]
  constructor
  · rw [htr, ← List.singleton_append, scalarStepsOf_append, scalarStepsOf_append,
      scalarStepsOf_append, hrun, scalarStepsOf_append, scalarStepsOf_append,
      scalarStepsOf_transition]
    unfold stageIterEvents
    rw [scalarStepsOf_cons_optimizer, scalarStepsOf_flatMap]
    simp only [scalarStepsOf_specular_iteration]
    have hz : scalarStepsOf "specular_loss" (if scenarioA_config.fast_debug_mode then []
        else [Event.cameraRaysViz]) = [] := by
      split <;> rfl
    rw [hz]
    norm_num [scalarStepsOf, traceFilter]
    decide
  · rw [htr, ← List.singleton_append, savedFilesOf_append, savedFilesOf_append,
      savedFilesOf_append, hrun, savedFilesOf_append, savedFilesOf_append,
      savedFilesOf_transition]
    unfold stageIterEvents
    rw [savedFilesOf_cons_optimizer, savedFilesOf_flatMap]
    simp only [savedFilesOf_iteration]
    have hz : savedFilesOf (if scenarioA_config.fast_debug_mode then []
        else [Event.cameraRaysViz]) = [] := by
      split <;> rfl
    rw [hz]
    norm_num [savedFilesOf, traceFilter]
    decide

theorem scenario_A_events_witness :
    trainOk scenarioA_config unitExternals witness_dataset 0 unitStore = true ∧
    savedFilesOf (trainTrace scenarioA_config unitExternals witness_dataset 0 unitStore) =
      ["model_stage_1_iter_1.pth", "model_stage_1_iter_5.pth", "model_final.pth"] :=
  ⟨by with_unfolding_all decide,
    (scenario_A_events unitExternals witness_dataset 0 unitStore
      (by with_unfolding_all decide)).2⟩

/-- C5: with `apply_diffuse_render_regularization = False`, the metrics sink never receives
the `diffuse_loss` or `diffuse_psnr` keys, no diffuse render pass is ever issued, every
emitted `total_loss` scalar equals the `specular_loss` scalar of the same step, and the
objective of every gradient step is exactly the specular l1 loss of that step. -/
theorem diffuse_disabled_behaviour (cfg : TrainConfig) (ext : Externals P) (ds : DatasetInfo)
    (ref : Nat) (store : Nat → VolumetricModel P)
    (h : trainOk cfg ext ds ref store = true)
    (hd : cfg.apply_diffuse_render_regularization = false) :
    scalarsOf "diffuse_loss" (trainTrace cfg ext ds ref store) = [] ∧
    scalarsOf "diffuse_psnr" (trainTrace cfg ext ds ref store) = [] ∧
    diffuseRenderStepsOf (trainTrace cfg ext ds ref store) = [] ∧
    scalarsOf "total_loss" (trainTrace cfg ext ds ref store) =
      scalarsOf "specular_loss" (trainTrace cfg ext ds ref store) ∧
    gradLossesOf (trainTrace cfg ext ds ref store) =
      (gradStepsOf (trainTrace cfg ext ds ref store)).map fun g =>
        (g, l1_loss (ext.render g false) (ext.target g)) := by
  obtain ⟨hS, hf, hp, htr, -, -⟩ := train_ok_inv cfg ext ds ref store h
  have hrun : runLoopEvents cfg ext ds store ref = loopEvents cfg ext ds (dataset_size cfg ds)
    (scheduledSizes cfg (store ref)) (runStartGrid cfg ext store ref)
    (List.range' 1 cfg.num_stages) := rfl
  refine ⟨?_, ?_, ?_, ?_, ?_⟩
  · rw [htr, ← List.singleton_append, scalarsOf_append, scalarsOf_append, scalarsOf_append,
      hrun, (scalarsOf_diffuse_loop cfg ext ds _ _ hd _ _).1]
    have hz : scalarsOf "diffuse_loss" (if cfg.fast_debug_mode then []
        else [Event.cameraRaysViz]) = [] := by
      split <;> rfl
    rw [hz]
    simp [scalarsOf, traceFilter]
  · rw [htr, ← List.singleton_append, scalarsOf_append, scalarsOf_append, scalarsOf_append,
      hrun, (scalarsOf_diffuse_loop cfg ext ds _ _ hd _ _).2]
    have hz : scalarsOf "diffuse_psnr" (if cfg.fast_debug_mode then []
        else [Event.cameraRaysViz]) = [] := by
      split <;> rfl
    rw [hz]
    simp [scalarsOf, traceFilter]
  · rw [htr, ← List.singleton_append, diffuseRenderStepsOf_append,
      diffuseRenderStepsOf_append, diffuseRenderStepsOf_append, hrun,
      diffuseRenderStepsOf_loop cfg ext ds _ _ hd _ _]
    have hz : diffuseRenderStepsOf (if cfg.fast_debug_mode then []
        else [Event.cameraRaysViz]) = [] := by
      split <;> rfl
    rw [hz]
    simp [diffuseRenderStepsOf, traceFilter]
  · rw [htr, ← List.singleton_append]
    rw [scalarsOf_append, scalarsOf_append, scalarsOf_append,
      scalarsOf_append, scalarsOf_append, scalarsOf_append, hrun,
      scalarsOf_total_eq_specular_loop cfg ext ds _ _ hd _ _]
    have hz1 : scalarsOf "total_loss" (if cfg.fast_debug_mode then []
        else [Event.cameraRaysViz]) = [] := by
      split <;> rfl
    have hz2 : scalarsOf "specular_loss" (if cfg.fast_debug_mode then []
        else [Event.cameraRaysViz]) = [] := by
      split <;> rfl
    rw [hz1, hz2]
    simp [scalarsOf, traceFilter]
  · rw [htr, ← List.singleton_append]
    rw [gradLossesOf_append, gradLossesOf_append, gradLossesOf_append,
      gradStepsOf_append, gradStepsOf_append, gradStepsOf_append, hrun,
      gradLossesOf_loop_specular cfg ext ds _ _ hd _ _]
    have hz1 : gradLossesOf (if cfg.fast_debug_mode then []
        else [Event.cameraRaysViz]) = [] := by
      split <;> rfl
    have hz2 : gradStepsOf (if cfg.fast_debug_mode then []
        else [Event.cameraRaysViz]) = [] := by
      split <;> rfl
    rw [hz1, hz2]
    simp [gradLossesOf, gradStepsOf, traceFilter]

theorem diffuse_disabled_witness :
    trainOk { witness_config with apply_diffuse_render_regularization := false }
      unitExternals witness_dataset 0 unitStore = true ∧
    scalarsOf "total_loss" (trainTrace
        { witness_config with apply_diffuse_render_regularization := false }
        unitExternals witness_dataset 0 unitStore) =
      scalarsOf "specular_loss" (trainTrace
        { witness_config with apply_diffuse_render_regularization := false }
        unitExternals witness_dataset 0 unitStore) :=
  ⟨by with_unfolding_all decide,
    (diffuse_disabled_behaviour _ unitExternals witness_dataset 0 unitStore
      (by with_unfolding_all decide) rfl).2.2.2.1⟩

/-- C6: with `fast_debug_mode = True`, even when a held-out dataset is present, no held-out
evaluation event is ever emitted regardless of `test_freq`, the one-time startup
camera-rays visualization is skipped, and the per-stage iteration counts are unchanged (the
gradient-step clock is still `1..num_stages * num_iterations_per_stage`). -/
theorem fast_debug_skips_eval_and_viz (cfg : TrainConfig) (ext : Externals P)
    (ds : DatasetInfo) (ref : Nat) (store : Nat → VolumetricModel P)
    (h : trainOk cfg ext ds ref store = true) (hfd : cfg.fast_debug_mode = true) :
    testStepsOf (trainTrace cfg ext ds ref store) = [] ∧
    cameraRaysVizOf (trainTrace cfg ext ds ref store) = [] ∧
    gradStepsOf (trainTrace cfg ext ds ref store) =
      List.range' 1 (cfg.num_stages * cfg.num_iterations_per_stage) := by
  obtain ⟨hS, hf, hp, htr, -, -⟩ := train_ok_inv cfg ext ds ref store h
  refine ⟨?_, ?_, gradStepsOf_trace cfg ext ds ref store h⟩
  · rw [htr, ← List.singleton_append, testStepsOf_append, testStepsOf_append,
      testStepsOf_append]
    rw [show runLoopEvents cfg ext ds store ref = loopEvents cfg ext ds (dataset_size cfg ds)
      (scheduledSizes cfg (store ref)) (runStartGrid cfg ext store ref)
      (List.range' 1 cfg.num_stages) from rfl]
    rw [testStepsOf_loop_fastdebug cfg ext ds (dataset_size cfg ds)
      (scheduledSizes cfg (store ref)) hfd]
    rw [hfd]
    simp [testStepsOf, traceFilter]
  · rw [htr, ← List.singleton_append, cameraRaysVizOf_append, cameraRaysVizOf_append,
      cameraRaysVizOf_append]
    rw [show runLoopEvents cfg ext ds store ref = loopEvents cfg ext ds (dataset_size cfg ds)
      (scheduledSizes cfg (store ref)) (runStartGrid cfg ext store ref)
      (List.range' 1 cfg.num_stages) from rfl]
    rw [cameraRaysVizOf_loop]
    rw [hfd]
    simp [cameraRaysVizOf, traceFilter]

theorem fast_debug_witness :
    trainOk { witness_config with fast_debug_mode := true } unitExternals witness_dataset 0
      unitStore = true ∧
    testStepsOf (trainTrace { witness_config with fast_debug_mode := true } unitExternals
      witness_dataset 0 unitStore) = [] ∧
    cameraRaysVizOf (trainTrace { witness_config with fast_debug_mode := true } unitExternals
      witness_dataset 0 unitStore) = [] := by
  refine ⟨by with_unfolding_all decide, ?_, ?_⟩
  · exact (fast_debug_skips_eval_and_viz _ unitExternals witness_dataset 0 unitStore
      (by with_unfolding_all decide) rfl).1
  · exact (fast_debug_skips_eval_and_viz _ unitExternals witness_dataset 0 unitStore
      (by with_unfolding_all decide) rfl).2.1

/-- C7: when the mean squared error is zero, the (spec-modelled) `mse2psnr` returns the
saturating cap — a finite extended real, never `⊤` (infinity) nor `⊥` — for every
non-negative pixel value range. -/
theorem psnr_capped_at_zero_mse (cap : Real) (psnr_formula : Rat → Rat → Real)
    (max_val : Rat) (hm : 0 ≤ max_val) :
    mse2psnr cap psnr_formula max_val 0 = (cap : EReal) ∧
    (cap : EReal) ≠ ⊤ ∧ (cap : EReal) ≠ ⊥ :=
  ⟨by simp [mse2psnr], EReal.coe_ne_top cap, EReal.coe_ne_bot cap⟩

theorem psnr_capped_at_zero_mse_witness :
    (0 : Rat) ≤ 1 ∧
    mse2psnr 100 (fun _ _ => 0) 1 0 = ((100 : Real) : EReal) :=
  ⟨by norm_num, (psnr_capped_at_zero_mse 100 (fun _ _ => 0) 1 (by norm_num)).1⟩

/-- C8 (counterexample to the claim as stated): in a run with
`apply_diffuse_render_regularization = False`, the visual-feedback dispatch at global step 1
still requests the diffuse rendering (`log_diffuse_rendered_version = true`), so diffuse
feedback rendering is produced even though the regularization is disabled. -/
theorem feedback_diffuse_despite_disabled :
    scenarioC8_config.apply_diffuse_render_regularization = false ∧
    Event.feedbackRender 1 true ∈
      trainTrace scenarioC8_config unitExternals scenarioC3_dataset 0 unitStore := by
  with_unfolding_all decide

/-- C8 (amended): on every triggered visual-feedback step the dispatcher renders the fixed
feedback pose and always requests the diffuse variant as well
(`log_diffuse_rendered_version=True` is hardcoded at line 406), regardless of
`apply_diffuse_render_regularization`. -/
theorem feedback_always_requests_diffuse (cfg : TrainConfig) (ext : Externals P)
    (ds : DatasetInfo) (ref : Nat) (store : Nat → VolumetricModel P)
    (h : trainOk cfg ext ds ref store = true) :
    ((feedbacksOf (trainTrace cfg ext ds ref store)).all fun p => p.2) = true := by
  obtain ⟨hS, hf, hp, htr, -, -⟩ := train_ok_inv cfg ext ds ref store h
  rw [htr, ← List.singleton_append, feedbacksOf_append, feedbacksOf_append,
    feedbacksOf_append]
  simp only [List.all_append]
  rw [show runLoopEvents cfg ext ds store ref = loopEvents cfg ext ds (dataset_size cfg ds)
    (scheduledSizes cfg (store ref)) (runStartGrid cfg ext store ref)
    (List.range' 1 cfg.num_stages) from rfl]
  rw [feedbacksOf_all_true_loop]
  have hz : feedbacksOf (if cfg.fast_debug_mode then []
      else [Event.cameraRaysViz]) = [] := by
    split <;> rfl
  rw [hz]
  simp [feedbacksOf, traceFilter]

theorem feedback_always_requests_diffuse_witness :
    trainOk witness_config unitExternals witness_dataset 0 unitStore = true ∧
    ((feedbacksOf (trainTrace witness_config unitExternals witness_dataset 0
      unitStore)).all fun p => p.2) = true :=
  ⟨by with_unfolding_all decide,
    feedback_always_requests_diffuse witness_config unitExternals witness_dataset 0 unitStore
      (by with_unfolding_all decide)⟩

/-- C9: the resize events of a completed run are exactly: the one-time initial downscale to
the coarsest scheduled size (trilinear, re-randomized), followed by one trilinear,
non-re-randomized resize to the next scheduled resolution after each of the `num_stages - 1`
non-final stages, and nothing after the final stage; moreover every gradient step of stage
`s` runs at the scheduled resolution of stage `s`, so the resolution never changes at any
other point in the loop. -/
theorem stage_transition_resizes (cfg : TrainConfig) (ext : Externals P) (ds : DatasetInfo)
    (ref : Nat) (store : Nat → VolumetricModel P)
    (h : trainOk cfg ext ds ref store = true) :
    resizesOf (trainTrace cfg ext ds ref store) =
      ((scheduledSizes cfg (store ref)).getD 0 default_grid_size, "trilinear", true) ::
        ((List.range' 1 (cfg.num_stages - 1)).map fun s =>
          ((scheduledSizes cfg (store ref)).getD s default_grid_size, "trilinear", false)) ∧
    gradDimsOf (trainTrace cfg ext ds ref store) =
      (List.range' 1 cfg.num_stages).flatMap fun s =>
        (List.range' 1 cfg.num_iterations_per_stage).map fun i =>
          (global_step cfg.num_iterations_per_stage s i,
            (scheduledSizes cfg (store ref)).getD (s - 1) default_grid_size) := by
  obtain ⟨hS, hf, hp, htr, -, -⟩ := train_ok_inv cfg ext ds ref store h
  constructor
  · rw [htr, ← List.singleton_append, resizesOf_append, resizesOf_append, resizesOf_append]
    rw [show runLoopEvents cfg ext ds store ref = loopEvents cfg ext ds (dataset_size cfg ds)
      (scheduledSizes cfg (store ref)) (runStartGrid cfg ext store ref)
      (List.range' 1 cfg.num_stages) from rfl]
    rw [resizesOf_loop]
    rw [resizes_range_form _ cfg.num_stages hS]
    have hz : resizesOf (if cfg.fast_debug_mode then [] else [Event.cameraRaysViz]) = [] := by
      split <;> rfl
    rw [hz]
    simp [resizesOf, traceFilter]
  · rw [htr, ← List.singleton_append, gradDimsOf_append, gradDimsOf_append, gradDimsOf_append]
    rw [show runLoopEvents cfg ext ds store ref = loopEvents cfg ext ds (dataset_size cfg ds)
      (scheduledSizes cfg (store ref)) (runStartGrid cfg ext store ref)
      (List.range' 1 cfg.num_stages) from rfl]
    have hl := gradDimsOf_loop cfg ext ds (dataset_size cfg ds)
      (scheduledSizes cfg (store ref)) cfg.num_stages 0 (runStartGrid cfg ext store ref)
      (runStartGrid_dims cfg ext store ref) (by omega)
    simp only [Nat.zero_add] at hl
    rw [hl]
    have hz : gradDimsOf (if cfg.fast_debug_mode then [] else [Event.cameraRaysViz]) = [] := by
      split <;> rfl
    rw [hz]
    simp [gradDimsOf, traceFilter]

theorem stage_transition_resizes_witness :
    trainOk witness_config unitExternals witness_dataset 0 unitStore = true ∧
    resizesOf (trainTrace witness_config unitExternals witness_dataset 0 unitStore) =
      [(⟨4, 4, 4⟩, "trilinear", true), (⟨8, 8, 8⟩, "trilinear", false)] := by
  refine ⟨by with_unfolding_all decide, ?_⟩
  have H := stage_transition_resizes witness_config unitExternals witness_dataset 0 unitStore
    (by with_unfolding_all decide)
  exact H.1.trans (by with_unfolding_all decide)

/-- C10: a completed run returns the very same `VolumetricModel` object that was passed in —
the returned reference is the input reference, every other object in the store is untouched,
and the stored model differs from the input model only in its `thre3d_repr` field (which the
downscale and stage-transition resizes replaced in place). -/
theorem returns_same_object (cfg : TrainConfig) (ext : Externals P) (ds : DatasetInfo)
    (ref : Nat) (store : Nat → VolumetricModel P)
    (h : trainOk cfg ext ds ref store = true) :
    trainRef cfg ext ds ref store = ref ∧
    (∀ r, r ≠ ref → trainStore cfg ext ds ref store r = store r) ∧
    trainStore cfg ext ds ref store ref =
      { store ref with
        thre3d_repr := (trainStore cfg ext ds ref store ref).thre3d_repr } := by
  obtain ⟨-, -, -, -, href, hstore⟩ := train_ok_inv cfg ext ds ref store h
  refine ⟨href, ?_, ?_⟩
  · intro r hr
    rw [hstore]
    simp [hr]
  · rw [hstore]
    simp

theorem returns_same_object_witness :
    trainOk witness_config unitExternals witness_dataset 0 unitStore = true ∧
    trainRef witness_config unitExternals witness_dataset 0 unitStore = 0 ∧
    trainStore witness_config unitExternals witness_dataset 0 unitStore 5 = unitStore 5 := by
  have H := returns_same_object witness_config unitExternals witness_dataset 0 unitStore
    (by with_unfolding_all decide)
  exact ⟨by with_unfolding_all decide, H.1, H.2.1 5 (by decide)⟩

end ReluFields
